import Mathlib

/-!
Verification of the command-stream-receiver (CSR) flush-task pipeline of the
compute-runtime repository.  The repository sources under scrutiny are the
unit tests of the CSR subsystem; the production implementations of
`flushTask`, `StateBaseAddressHelper::programStateBaseAddress` and the
`SubmissionsAggregator` are not part of the corpus, so they are modelled
from the specification (sections 4.1 to 4.5), with the concrete expectations
fixed by the unit tests in the corpus.
-/

/-- Architectural cache-line size in bytes (MemoryConstants::cacheLineSize). -/
def cacheLineSize : Nat := 64

/-- Modelled from the spec: MemoryConstants::sizeOf4GBinPageEntities, the
architectural maximum addressable region size divided by the page-table
entity granularity (4 GB in 64 KB page entities, stated as a literal).  The
constant itself is not in the corpus; the unit tests only require that the
instruction buffer size equals this constant rather than any heap's actual
size. -/
def sizeOf4GBinPageEntities : Nat := 65536

theorem sizeOf4GBinPageEntities_eq_formula :
    sizeOf4GBinPageEntities = (4 * 2 ^ 30) / 2 ^ 16 := by
  norm_num [sizeOf4GBinPageEntities]

/-- Modelled from the spec: GmmHelper::decanonize, which reduces a canonical
64-bit pointer to its raw addressing-width form (48 address bits). -/
def decanonize (a : Nat) : Nat := a % 2 ^ 48

/-- Cache-policy usages consulted through the platform cache-policy table. -/
inductive GmmResourceUsage where
  | oclBufferConst
  | oclStateHeapBuffer
  | oclSystemMemoryBufferCachelineMisaligned
deriving DecidableEq

/-- Modelled from the spec: the platform collaborator's cache-policy-to-MOCS
index mapping (GmmHelper::getMOCS).  The table itself is an external
collaborator; only that distinct usages give distinct indices matters. -/
def getMOCS : GmmResourceUsage → Nat
  | .oclBufferConst => 4
  | .oclStateHeapBuffer => 2
  | .oclSystemMemoryBufferCachelineMisaligned => 6

/-- A heap handed to flush-task: base address, size in pages and the id of
its backing graphics allocation. -/
structure Heap where
  base : Nat
  sizeInPages : Nat
  allocId : Nat
deriving DecidableEq

/-- The fields of a STATE_BASE_ADDRESS command inspected by the tests. -/
structure SBACommand where
  dynamicStateBaseAddressModifyEnable : Bool
  dynamicStateBufferSizeModifyEnable : Bool
  dynamicStateBaseAddress : Nat
  dynamicStateBufferSize : Nat
  indirectObjectBaseAddressModifyEnable : Bool
  indirectObjectBufferSizeModifyEnable : Bool
  indirectObjectBaseAddress : Nat
  indirectObjectBufferSize : Nat
  surfaceStateBaseAddressModifyEnable : Bool
  surfaceStateBaseAddress : Nat
  instructionBaseAddressModifyEnable : Bool
  instructionBaseAddress : Nat
  instructionBufferSizeModifyEnable : Bool
  instructionBufferSize : Nat
  generalStateBaseAddressModifyEnable : Bool
  generalStateBufferSizeModifyEnable : Bool
  generalStateBaseAddress : Nat
  generalStateBufferSize : Nat
  bindlessSurfaceStateBaseAddress : Nat
  bindlessSurfaceStateBaseAddressModifyEnable : Bool
  bindlessSurfaceStateSize : Nat
  statelessDataPortAccessMemoryObjectControlState : Nat
  instructionMemoryObjectControlState : Nat
deriving DecidableEq

/-- Argument bundle of StateBaseAddressHelper::programStateBaseAddress,
mirroring the call in the unit test givenSbaProgrammingWhenHeapsAreNotProvidedThenDontProgram. -/
structure SbaArgs where
  dsh : Option Heap
  ioh : Option Heap
  ssh : Option Heap
  generalStateBase : Nat
  setGeneralStateBaseAddress : Bool
  surfaceStateBaseAddressArg : Nat
  internalHeapBase : Nat
  instructionHeapBase : Nat
  globalHeapsBase : Nat
  setInstructionStateBaseAddress : Bool
  useGlobalHeapsBaseAddress : Bool
  is64bit : Bool
  disableCachingForHeaps : Bool
  bindlessHeapSupport : Bool
deriving DecidableEq

/-- Modelled from the spec: StateBaseAddressHelper::programStateBaseAddress
(section 4.3), whose implementation is not in the corpus.  For each of the
four heap kinds the modify-enable bit and base/size fields are populated
only when that heap is provided; the instruction buffer size, when enabled,
is the architectural 4GB-page-entity constant; the general state base is the
decanonicalized internal heap base on 64-bit targets (the raw general state
base argument on 32-bit targets); bindless surface state fields are
populated only when bindless-heap support is enabled; MOCS fields follow the
cache-policy table parameterized by the disable-caching-for-heaps override. -/
def programStateBaseAddress (a : SbaArgs) : SBACommand :=
  { dynamicStateBaseAddressModifyEnable := a.dsh.isSome
    dynamicStateBufferSizeModifyEnable := a.dsh.isSome
    dynamicStateBaseAddress :=
      match a.dsh with
      | some h => if a.useGlobalHeapsBaseAddress then a.globalHeapsBase else h.base
      | none => 0
    dynamicStateBufferSize :=
      match a.dsh with
      | some h => h.sizeInPages
      | none => 0
    indirectObjectBaseAddressModifyEnable := a.ioh.isSome
    indirectObjectBufferSizeModifyEnable := a.ioh.isSome
    indirectObjectBaseAddress :=
      match a.ioh with
      | some h => h.base
      | none => 0
    indirectObjectBufferSize :=
      match a.ioh with
      | some h => h.sizeInPages
      | none => 0
    surfaceStateBaseAddressModifyEnable := a.ssh.isSome
    surfaceStateBaseAddress :=
      match a.ssh with
      | some h => if a.useGlobalHeapsBaseAddress then a.globalHeapsBase else h.base
      | none => 0
    instructionBaseAddressModifyEnable := a.setInstructionStateBaseAddress
    instructionBaseAddress :=
      if a.setInstructionStateBaseAddress then a.instructionHeapBase else 0
    instructionBufferSizeModifyEnable := a.setInstructionStateBaseAddress
    instructionBufferSize :=
      if a.setInstructionStateBaseAddress then sizeOf4GBinPageEntities else 0
    generalStateBaseAddressModifyEnable := a.setGeneralStateBaseAddress
    generalStateBufferSizeModifyEnable := a.setGeneralStateBaseAddress
    generalStateBaseAddress :=
      if a.setGeneralStateBaseAddress then
        (if a.is64bit then decanonize a.internalHeapBase else a.generalStateBase)
      else 0
    generalStateBufferSize := if a.setGeneralStateBaseAddress then 0xfffff else 0
    bindlessSurfaceStateBaseAddress :=
      if a.bindlessHeapSupport then a.surfaceStateBaseAddressArg else 0
    bindlessSurfaceStateBaseAddressModifyEnable := a.bindlessHeapSupport
    bindlessSurfaceStateSize := if a.bindlessHeapSupport then 0xfffff else 0
    statelessDataPortAccessMemoryObjectControlState :=
      getMOCS (if a.disableCachingForHeaps then
        .oclSystemMemoryBufferCachelineMisaligned else .oclBufferConst)
    instructionMemoryObjectControlState :=
      getMOCS (if a.disableCachingForHeaps then
        .oclSystemMemoryBufferCachelineMisaligned else .oclStateHeapBuffer) }

/-- C3: with all four heap pointers absent but internal and instruction heap
bases provided, on a 64-bit target, programStateBaseAddress leaves the
dynamic-state, indirect-object and surface-state modify-enable bits false
with zero base/size fields, enables the instruction base with buffer size
equal to the architectural 4GB-page-entity constant, programs the general
state base from the decanonicalized internal heap base (not the general
state base argument), and leaves the bindless surface state fields zero and
disabled when bindless-heap support is disabled. -/
theorem programStateBaseAddress_absentHeaps
    (internalHeapBase instructionHeapBase generalStateBase : Nat) :
    (programStateBaseAddress
      { dsh := none, ioh := none, ssh := none,
        generalStateBase := generalStateBase,
        setGeneralStateBaseAddress := true,
        surfaceStateBaseAddressArg := 0,
        internalHeapBase := internalHeapBase,
        instructionHeapBase := instructionHeapBase,
        globalHeapsBase := 0,
        setInstructionStateBaseAddress := true,
        useGlobalHeapsBaseAddress := false,
        is64bit := true,
        disableCachingForHeaps := false,
        bindlessHeapSupport := false }).dynamicStateBaseAddressModifyEnable = false ∧
    (programStateBaseAddress
      { dsh := none, ioh := none, ssh := none,
        generalStateBase := generalStateBase,
        setGeneralStateBaseAddress := true,
        surfaceStateBaseAddressArg := 0,
        internalHeapBase := internalHeapBase,
        instructionHeapBase := instructionHeapBase,
        globalHeapsBase := 0,
        setInstructionStateBaseAddress := true,
        useGlobalHeapsBaseAddress := false,
        is64bit := true,
        disableCachingForHeaps := false,
        bindlessHeapSupport := false }) =
    { dynamicStateBaseAddressModifyEnable := false
      dynamicStateBufferSizeModifyEnable := false
      dynamicStateBaseAddress := 0
      dynamicStateBufferSize := 0
      indirectObjectBaseAddressModifyEnable := false
      indirectObjectBufferSizeModifyEnable := false
      indirectObjectBaseAddress := 0
      indirectObjectBufferSize := 0
      surfaceStateBaseAddressModifyEnable := false
      surfaceStateBaseAddress := 0
      instructionBaseAddressModifyEnable := true
      instructionBaseAddress := instructionHeapBase
      instructionBufferSizeModifyEnable := true
      instructionBufferSize := sizeOf4GBinPageEntities
      generalStateBaseAddressModifyEnable := true
      generalStateBufferSizeModifyEnable := true
      generalStateBaseAddress := decanonize internalHeapBase
      generalStateBufferSize := 0xfffff
      bindlessSurfaceStateBaseAddress := 0
      bindlessSurfaceStateBaseAddressModifyEnable := false
      bindlessSurfaceStateSize := 0
      statelessDataPortAccessMemoryObjectControlState := getMOCS .oclBufferConst
      instructionMemoryObjectControlState := getMOCS .oclStateHeapBuffer } := by
  exact ⟨rfl, rfl⟩

/-- Pipe-control cache-control and stall bits inspected by the tests. -/
structure PipeControl where
  commandStreamerStall : Bool
  dcFlush : Bool
  renderTargetCacheFlush : Bool
  instructionCacheInvalidate : Bool
  textureCacheInvalidate : Bool
  pipeControlFlush : Bool
  vfCacheInvalidate : Bool
  constantCacheInvalidate : Bool
  stateCacheInvalidate : Bool
  hdcPipelineFlush : Bool
  compressionControlSurfaceCcsFlush : Bool
deriving DecidableEq

/-- A command appended to a command stream by the flush-task composer. -/
inductive Cmd where
  | pipeControl (pc : PipeControl)
  | sba (c : SBACommand)
  | btpa (base sizeInPages mocs : Nat)
  | batchBufferStart (addr : Nat)
  | batchBufferEnd
  | preambleState
deriving DecidableEq

/-- Encoded byte size of each command kind; the only size that the claims
depend on is that a batch-buffer-start fits inside one cache line. -/
def cmdBytes : Cmd → Nat
  | .pipeControl _ => 24
  | .sba _ => 80
  | .btpa _ _ _ => 16
  | .batchBufferStart _ => 12
  | .batchBufferEnd => 4
  | .preambleState => 8

/-- Total encoded byte size of a command list. -/
def bytesOf (l : List Cmd) : Nat := (l.map cmdBytes).sum

/-- Round n up to the next multiple of k. -/
def alignUp (n k : Nat) : Nat := ((n + k - 1) / k) * k

/-- A client-owned command stream: commands, used bytes and backing
allocation id. -/
structure ClientStream where
  cmds : List Cmd
  used : Nat
  allocId : Nat
deriving DecidableEq

/-- An aggregator entry recorded in batched dispatch mode. -/
structure CommandBuffer where
  surfaces : List Nat
  startOffset : Nat
  requiresCoherency : Bool
  lowPriority : Bool
  commandBufferAllocation : Nat
deriving DecidableEq

/-- The completion stamp returned by flush-task. -/
structure CompletionStamp where
  taskCount : Nat
  taskLevel : Nat
  flushStamp : Nat
deriving DecidableEq

/-- Dispatch policy of the CSR. -/
inductive DispatchMode where
  | immediateDispatch
  | batchedDispatch
deriving DecidableEq

/-- The per-submission dispatch flags consulted by flush-task. -/
structure DispatchFlags where
  blocking : Bool
  guardCommandBufferWithPipeControl : Bool
  requiresCoherency : Bool
  lowPriority : Bool
  epilogueRequired : Bool
deriving DecidableEq

/-- Debug-override collaborator flags consulted by the composer. -/
structure Overrides where
  disableCachingForHeaps : Bool
  flushAllCaches : Bool
  forcePipeControlPriorToWalker : Bool
deriving DecidableEq

/-- Platform/capability collaborator constants consulted by the composer. -/
structure Platform where
  isDcFlushAllowed : Bool
  internalHeapBase : Nat
  is64bit : Bool
deriving DecidableEq

/-- The CSR state that persists across flush-task calls: dirty-state
snapshots, counters, the owned command stream, the aggregator queue and the
per-context residency set (single submitting context). -/
structure CSR where
  lastDsh : Option Heap
  lastIoh : Option Heap
  lastSsh : Option Heap
  lastPreemptionMode : Nat
  lastSentCoherencyRequest : Bool
  taskLevel : Nat
  taskCount : Nat
  flushStampVal : Nat
  flushCalledCount : Nat
  requiresInstructionCacheFlush : Bool
  recursiveLockCounter : Nat
  timestampPacketWriteEnabled : Bool
  multiOsContextCapable : Bool
  dispatchMode : DispatchMode
  forceProgrammingFlags : Bool
  cmdBufferQueue : List CommandBuffer
  recordedCommandBuffer : Option CommandBuffer
  csStream : List Cmd
  csUsed : Nat
  residencySet : List (Nat × Nat)
  extraSurfaces : List Nat
deriving DecidableEq

/-- The inputs of one flush-task call. -/
structure FlushInput where
  client : ClientStream
  startOffset : Nat
  dsh : Heap
  ioh : Heap
  ssh : Heap
  taskLevel : Nat
  flags : DispatchFlags
  preemptionMode : Nat
deriving DecidableEq

/-- The observable outcome of one flush-task call. -/
structure FlushResult where
  csr : CSR
  client : ClientStream
  emitted : List Cmd
  stamp : CompletionStamp
deriving DecidableEq

/-- Modelled from the spec: CommandStreamReceiver::registerInstructionCacheFlush
(section 4.2), not in the corpus; records a pending instruction-cache
invalidate under the CSR exclusive lock (bumping the recursive-lock counter). -/
def registerInstructionCacheFlush (csr : CSR) : CSR :=
  { csr with requiresInstructionCacheFlush := true,
             recursiveLockCounter := csr.recursiveLockCounter + 1 }

/-- Modelled from the spec: CommandStreamReceiver::initProgrammingFlags, not
in the corpus; resets the programming flags so that the next flush-task
re-emits state-base-address and binding-table-pool programming even with
unchanged heaps. -/
def initProgrammingFlags (csr : CSR) : CSR :=
  { csr with forceProgrammingFlags := true }

/-- True when the dynamic-state heap identity differs from the snapshot. -/
def dshIsDirty (csr : CSR) (i : FlushInput) : Bool :=
  if csr.lastDsh = some i.dsh then false else true

/-- True when the indirect-object heap identity differs from the snapshot. -/
def iohIsDirty (csr : CSR) (i : FlushInput) : Bool :=
  if csr.lastIoh = some i.ioh then false else true

/-- True when the surface-state heap identity differs from the snapshot. -/
def sshIsDirty (csr : CSR) (i : FlushInput) : Bool :=
  if csr.lastSsh = some i.ssh then false else true

/-- True when any heap identity differs from the snapshot. -/
def heapsAreDirty (csr : CSR) (i : FlushInput) : Bool :=
  dshIsDirty csr i || iohIsDirty csr i || sshIsDirty csr i

/-- True when state-base-address must be (re)programmed: some heap identity
changed, or an initProgrammingFlags reset forces re-emission. -/
def sbaNeeded (csr : CSR) (i : FlushInput) : Bool :=
  heapsAreDirty csr i || csr.forceProgrammingFlags

/-- True when the binding-table-pool-allocation command must be emitted: the
surface-state heap was reprogrammed, or an initProgrammingFlags reset forces
re-emission. -/
def btpaNeeded (csr : CSR) (i : FlushInput) : Bool :=
  sshIsDirty csr i || csr.forceProgrammingFlags

/-- True when preamble state (preemption mode or coherency mode) changed. -/
def preambleNeeded (csr : CSR) (i : FlushInput) : Bool :=
  (if csr.lastPreemptionMode = i.preemptionMode then false else true) ||
  (if csr.lastSentCoherencyRequest = i.flags.requiresCoherency then false else true)

/-- True when a barrier is owed to a task-level increase: the submitted task
level strictly exceeds the stored one and timestamp-packet completion
tracking does not handle the ordering instead. -/
def taskLevelBarrierNeeded (csr : CSR) (i : FlushInput) : Bool :=
  decide (csr.taskLevel < i.taskLevel) && !csr.timestampPacketWriteEnabled

/-- True when a flush-task barrier pipe-control must be emitted. -/
def barrierNeeded (csr : CSR) (i : FlushInput) : Bool :=
  taskLevelBarrierNeeded csr i || csr.requiresInstructionCacheFlush

/-- A pipe-control with only the command-streamer-stall bit set. -/
def stallOnlyPipeControl : PipeControl :=
  { commandStreamerStall := true
    dcFlush := false
    renderTargetCacheFlush := false
    instructionCacheInvalidate := false
    textureCacheInvalidate := false
    pipeControlFlush := false
    vfCacheInvalidate := false
    constantCacheInvalidate := false
    stateCacheInvalidate := false
    hdcPipelineFlush := false
    compressionControlSurfaceCcsFlush := false }

/-- The pipe-control emitted after the forced stall when the
force-pipe-control-prior-to-walker override is set; every cache-control bit
follows the flush-all-caches override. -/
def walkerPipeControl (ov : Overrides) : PipeControl :=
  { commandStreamerStall := true
    dcFlush := ov.flushAllCaches
    renderTargetCacheFlush := ov.flushAllCaches
    instructionCacheInvalidate := ov.flushAllCaches
    textureCacheInvalidate := ov.flushAllCaches
    pipeControlFlush := ov.flushAllCaches
    vfCacheInvalidate := ov.flushAllCaches
    constantCacheInvalidate := ov.flushAllCaches
    stateCacheInvalidate := ov.flushAllCaches
    hdcPipelineFlush := ov.flushAllCaches
    compressionControlSurfaceCcsFlush := ov.flushAllCaches }

/-- The barrier emitted strictly before a state-base-address command:
texture-cache invalidate and the hardware-generation HDC pipeline-flush bit
are set, and data-cache flush follows the platform policy. -/
def preSbaPipeControl (plat : Platform) : PipeControl :=
  { commandStreamerStall := true
    dcFlush := plat.isDcFlushAllowed
    renderTargetCacheFlush := false
    instructionCacheInvalidate := false
    textureCacheInvalidate := true
    pipeControlFlush := false
    vfCacheInvalidate := false
    constantCacheInvalidate := false
    stateCacheInvalidate := false
    hdcPipelineFlush := true
    compressionControlSurfaceCcsFlush := false }

/-- The flush-task barrier pipe-control; the instruction-cache-invalidate
bit is set when a registered instruction-cache flush is pending. -/
def barrierPipeControl (plat : Platform) (icache : Bool) : PipeControl :=
  { commandStreamerStall := true
    dcFlush := plat.isDcFlushAllowed
    renderTargetCacheFlush := false
    instructionCacheInvalidate := icache
    textureCacheInvalidate := false
    pipeControlFlush := false
    vfCacheInvalidate := false
    constantCacheInvalidate := false
    stateCacheInvalidate := false
    hdcPipelineFlush := false
    compressionControlSurfaceCcsFlush := false }

/-- The pipe-control written into the client's own stream to guard the
command buffer (blocking dispatch or batched-mode epilogue). -/
def guardPipeControl (plat : Platform) : PipeControl :=
  { commandStreamerStall := true
    dcFlush := plat.isDcFlushAllowed
    renderTargetCacheFlush := false
    instructionCacheInvalidate := false
    textureCacheInvalidate := false
    pipeControlFlush := false
    vfCacheInvalidate := false
    constantCacheInvalidate := false
    stateCacheInvalidate := false
    hdcPipelineFlush := false
    compressionControlSurfaceCcsFlush := false }

/-- The MOCS index used for the binding-table-pool-allocation command: the
cacheline-misaligned system-memory policy under the disable-caching-for-heaps
override, else the default state-heap policy. -/
def heapMocs (ov : Overrides) : Nat :=
  getMOCS (if ov.disableCachingForHeaps then
    .oclSystemMemoryBufferCachelineMisaligned else .oclStateHeapBuffer)

/-- The state-base-address command composed by flush-task from the current
heaps and platform constants. -/
def flushTaskSbaCmd (ov : Overrides) (plat : Platform) (i : FlushInput) : SBACommand :=
  programStateBaseAddress
    { dsh := some i.dsh, ioh := some i.ioh, ssh := some i.ssh,
      generalStateBase := plat.internalHeapBase,
      setGeneralStateBaseAddress := true,
      surfaceStateBaseAddressArg := i.ssh.base,
      internalHeapBase := plat.internalHeapBase,
      instructionHeapBase := plat.internalHeapBase,
      globalHeapsBase := 0,
      setInstructionStateBaseAddress := true,
      useGlobalHeapsBaseAddress := false,
      is64bit := plat.is64bit,
      disableCachingForHeaps := ov.disableCachingForHeaps,
      bindlessHeapSupport := false }

/-- Modelled from the spec: the ordered administrative command sequence that
CommandStreamReceiverHw::flushTask (section 4.4, not in the corpus) writes
into the CSR-owned stream: optional forced stall plus walker barrier, then
optional preamble state, then optional pre-SBA barrier, SBA command and
binding-table-pool allocation, then the optional task-level or
instruction-cache barrier; a multi-OS-context capable CSR additionally
always routes the client buffer through its own stream with a
batch-buffer-start (fixed by the unit test at part_000 lines 223-233). -/
def flushTaskEmitted (csr : CSR) (ov : Overrides) (plat : Platform)
    (i : FlushInput) : List Cmd :=
  (if ov.forcePipeControlPriorToWalker then
    [Cmd.pipeControl stallOnlyPipeControl,
     Cmd.pipeControl (walkerPipeControl ov)]
  else []) ++
  (if preambleNeeded csr i then [Cmd.preambleState] else []) ++
  (if sbaNeeded csr i then
    [Cmd.pipeControl (preSbaPipeControl plat),
     Cmd.sba (flushTaskSbaCmd ov plat i)] ++
    (if btpaNeeded csr i then
      [Cmd.btpa i.ssh.base i.ssh.sizeInPages (heapMocs ov)] else [])
  else []) ++
  (if barrierNeeded csr i then
    [Cmd.pipeControl (barrierPipeControl plat csr.requiresInstructionCacheFlush)]
  else []) ++
  (if csr.multiOsContextCapable then [Cmd.batchBufferStart i.client.allocId] else [])

/-- True when flush-task writes a guarding pipe-control into the client's
own stream: the guard was requested and either the dispatch is blocking or
submission is deferred through the batching aggregator. -/
def clientPipeControlNeeded (csr : CSR) (i : FlushInput) : Bool :=
  i.flags.guardCommandBufferWithPipeControl &&
    (i.flags.blocking ||
      (if csr.dispatchMode = DispatchMode.batchedDispatch then true else false))

/-- True when an allocation is resident for the submitting context. -/
def isResident (s : List (Nat × Nat)) (a : Nat) : Bool :=
  s.any (fun p => p.1 == a)

/-- The residency task count recorded for an allocation, when resident. -/
def residencyTaskCount (s : List (Nat × Nat)) (a : Nat) : Option Nat :=
  (s.find? (fun p => p.1 == a)).map (fun p => p.2)

/-- Removes every allocation of a surface list from the residency set. -/
def releaseSurfaces (s : List (Nat × Nat)) (surfs : List Nat) : List (Nat × Nat) :=
  s.filter (fun p => !(surfs.contains p.1))

/-- Modelled from the spec: CommandStreamReceiverHw::flushTask (section 4.4),
whose implementation is not in the corpus.  It snapshots the just-used heap
identities, preemption and coherency state, appends the administrative
command sequence to the CSR-owned stream (rounding the used bytes up to the
cache-line size), optionally writes a guarding pipe-control into the
client's own stream, and then either does nothing further (nothing to flush),
records a CommandBuffer on the aggregator queue with its resident surfaces
(batched dispatch: flush stamp not advanced, submission counter untouched),
or submits immediately (advancing the flush stamp and submission counter).
A no-op flush returns the previous flush stamp and touches neither the
stream, the counters nor the residency set. -/
def flushTask (csr : CSR) (ov : Overrides) (plat : Platform)
    (i : FlushInput) : FlushResult :=
  let emitted := flushTaskEmitted csr ov plat i
  let clientPC := clientPipeControlNeeded csr i
  let client' :=
    if clientPC then
      { i.client with
          cmds := i.client.cmds ++ [Cmd.pipeControl (guardPipeControl plat)],
          used := i.client.used + cmdBytes (Cmd.pipeControl (guardPipeControl plat)) }
    else i.client
  let base : CSR :=
    { csr with
        lastDsh := some i.dsh, lastIoh := some i.ioh, lastSsh := some i.ssh,
        lastPreemptionMode := i.preemptionMode,
        lastSentCoherencyRequest := i.flags.requiresCoherency,
        forceProgrammingFlags := false,
        requiresInstructionCacheFlush := false,
        taskLevel := max csr.taskLevel i.taskLevel,
        csStream := csr.csStream ++ emitted,
        csUsed := csr.csUsed +
          (if emitted.isEmpty then 0 else alignUp (bytesOf emitted) cacheLineSize) }
  if emitted.isEmpty && !clientPC then
    { csr := base, client := client', emitted := emitted,
      stamp := { taskCount := csr.taskCount, taskLevel := base.taskLevel,
                 flushStamp := csr.flushStampVal } }
  else
    let newTaskCount := csr.taskCount + 1
    let surfaces :=
      [i.dsh.allocId, i.ioh.allocId, i.ssh.allocId, i.client.allocId] ++
        csr.extraSurfaces
    match csr.dispatchMode with
    | .batchedDispatch =>
      let cb : CommandBuffer :=
        { surfaces := surfaces, startOffset := i.startOffset,
          requiresCoherency := i.flags.requiresCoherency,
          lowPriority := i.flags.lowPriority,
          commandBufferAllocation := i.client.allocId }
      { csr := { base with
                   taskCount := newTaskCount,
                   cmdBufferQueue := csr.cmdBufferQueue ++ [cb],
                   residencySet :=
                     surfaces.map (fun a => (a, newTaskCount)) ++ csr.residencySet },
        client := client', emitted := emitted,
        stamp := { taskCount := newTaskCount, taskLevel := base.taskLevel,
                   flushStamp := csr.flushStampVal } }
    | .immediateDispatch =>
      { csr := { base with
                   taskCount := newTaskCount,
                   flushCalledCount := csr.flushCalledCount + 1,
                   flushStampVal := csr.flushStampVal + 1,
                   residencySet :=
                     surfaces.map (fun a => (a, newTaskCount)) ++ csr.residencySet },
        client := client', emitted := emitted,
        stamp := { taskCount := newTaskCount, taskLevel := base.taskLevel,
                   flushStamp := csr.flushStampVal + 1 } }

/-- Modelled from the spec: SubmissionsAggregator flushBatchedSubmissions
(section 4.5), not in the corpus; drains the queue in FIFO order, submits
each buffer exactly once through the hardware-submission collaborator
(advancing the submission counter and flush stamp, recording the submitted
batch buffer) and releases residency for every allocation in the buffer's
surface list. -/
def flushBatchedSubmissions (csr : CSR) : CSR :=
  csr.cmdBufferQueue.foldl
    (fun c cb =>
      { c with
          flushCalledCount := c.flushCalledCount + 1,
          flushStampVal := c.flushStampVal + 1,
          recordedCommandBuffer := some cb,
          residencySet := releaseSurfaces c.residencySet cb.surfaces })
    { csr with cmdBufferQueue := [] }

theorem flushTaskEmitted_eq_nil (csr : CSR) (ov : Overrides) (plat : Platform)
    (i : FlushInput)
    (hd : csr.lastDsh = some i.dsh) (hio : csr.lastIoh = some i.ioh)
    (hs : csr.lastSsh = some i.ssh)
    (hp : csr.lastPreemptionMode = i.preemptionMode)
    (hc : csr.lastSentCoherencyRequest = i.flags.requiresCoherency)
    (hf : csr.forceProgrammingFlags = false)
    (hic : csr.requiresInstructionCacheFlush = false)
    (htlb : taskLevelBarrierNeeded csr i = false)
    (hov : ov.forcePipeControlPriorToWalker = false)
    (hmoc : csr.multiOsContextCapable = false) :
    flushTaskEmitted csr ov plat i = [] := by
  simp [flushTaskEmitted, sbaNeeded, btpaNeeded, heapsAreDirty, dshIsDirty,
        iohIsDirty, sshIsDirty, preambleNeeded, barrierNeeded,
        hd, hio, hs, hp, hc, hf, hic, htlb, hov, hmoc]

theorem flushTask_nonDirty_csr_eq (csr : CSR) (ov : Overrides) (plat : Platform)
    (i : FlushInput)
    (hd : csr.lastDsh = some i.dsh) (hio : csr.lastIoh = some i.ioh)
    (hs : csr.lastSsh = some i.ssh)
    (hp : csr.lastPreemptionMode = i.preemptionMode)
    (hc : csr.lastSentCoherencyRequest = i.flags.requiresCoherency)
    (hf : csr.forceProgrammingFlags = false)
    (hic : csr.requiresInstructionCacheFlush = false)
    (htl : i.taskLevel = csr.taskLevel)
    (hov : ov.forcePipeControlPriorToWalker = false)
    (hmoc : csr.multiOsContextCapable = false)
    (hg : i.flags.guardCommandBufferWithPipeControl = false) :
    (flushTask csr ov plat i).csr = csr := by
  have he : flushTaskEmitted csr ov plat i = [] := by
    refine flushTaskEmitted_eq_nil csr ov plat i hd hio hs hp hc hf hic ?_ hov hmoc
    simp [taskLevelBarrierNeeded, htl]
  have hcpc : clientPipeControlNeeded csr i = false := by
    simp [clientPipeControlNeeded, hg]
  obtain ⟨ld, li, ls, lp, lc, tl, tc, fs, fcc, ric, rlc, tsp, moc, dm, fpf,
    q, rcb, st, us, rs, ex⟩ := csr
  simp only at hd hio hs hp hc hf hic htl hmoc
  subst hd hio hs hp hc hf hic htl hmoc
  simp [flushTask, he, hcpc, CSR.mk.injEq]

/-- C1: for a CSR whose dirty-state tracker reports nothing dirty (heap
identities, task level, preemption mode and override/coherency state match
the snapshots, no pending instruction-cache flush, no forced programming)
and whose client stream needs no extra space, flush-task emits zero commands
and zero bytes into the CSR stream, performs no hardware submission, leaves
the flush stamp unchanged and returns it as the completion stamp, and a
second call with identical inputs is a no-op on all observable state. -/
theorem flushTask_nonDirty_noop (csr : CSR) (ov : Overrides) (plat : Platform)
    (i : FlushInput)
    (hd : csr.lastDsh = some i.dsh) (hio : csr.lastIoh = some i.ioh)
    (hs : csr.lastSsh = some i.ssh)
    (hp : csr.lastPreemptionMode = i.preemptionMode)
    (hc : csr.lastSentCoherencyRequest = i.flags.requiresCoherency)
    (hf : csr.forceProgrammingFlags = false)
    (hic : csr.requiresInstructionCacheFlush = false)
    (htl : i.taskLevel = csr.taskLevel)
    (hov : ov.forcePipeControlPriorToWalker = false)
    (hmoc : csr.multiOsContextCapable = false)
    (hg : i.flags.guardCommandBufferWithPipeControl = false) :
    (flushTask csr ov plat i).emitted = [] ∧
    (flushTask csr ov plat i).csr = csr ∧
    (flushTask csr ov plat i).client = i.client ∧
    (flushTask csr ov plat i).csr.csUsed = csr.csUsed ∧
    (flushTask csr ov plat i).csr.flushCalledCount = csr.flushCalledCount ∧
    (flushTask csr ov plat i).csr.flushStampVal = csr.flushStampVal ∧
    (flushTask csr ov plat i).stamp.flushStamp = csr.flushStampVal ∧
    flushTask (flushTask csr ov plat i).csr ov plat i = flushTask csr ov plat i := by
  have he : flushTaskEmitted csr ov plat i = [] :=
    flushTaskEmitted_eq_nil csr ov plat i hd hio hs hp hc hf hic
      (by simp [taskLevelBarrierNeeded, htl]) hov hmoc
  have hcpc : clientPipeControlNeeded csr i = false := by
    simp [clientPipeControlNeeded, hg]
  have hcsr : (flushTask csr ov plat i).csr = csr :=
    flushTask_nonDirty_csr_eq csr ov plat i hd hio hs hp hc hf hic htl hov hmoc hg
  refine ⟨?_, hcsr, ?_, by rw [hcsr], by rw [hcsr], by rw [hcsr], ?_, by rw [hcsr]⟩
  · simp [flushTask, he, hcpc]
  · simp [flushTask, he, hcpc]
  · simp [flushTask, he, hcpc]

/-- Dynamic-state heap fixture used by the concrete witnesses. -/
def sampleDsh : Heap := { base := 4096, sizeInPages := 4, allocId := 10 }

/-- Indirect-object heap fixture used by the concrete witnesses. -/
def sampleIoh : Heap := { base := 8192, sizeInPages := 4, allocId := 11 }

/-- Surface-state heap fixture used by the concrete witnesses. -/
def sampleSsh : Heap := { base := 12288, sizeInPages := 4, allocId := 12 }

/-- Client command-stream fixture used by the concrete witnesses. -/
def sampleClient : ClientStream := { cmds := [], used := 0, allocId := 20 }

/-- Default dispatch flags, mirroring DispatchFlagsHelper::createDefaultDispatchFlags. -/
def defaultDispatchFlags : DispatchFlags :=
  { blocking := false, guardCommandBufferWithPipeControl := false,
    requiresCoherency := false, lowPriority := false, epilogueRequired := false }

/-- Default debug-override state (no override set). -/
def defaultOverrides : Overrides :=
  { disableCachingForHeaps := false, flushAllCaches := false,
    forcePipeControlPriorToWalker := false }

/-- Platform fixture used by the concrete witnesses. -/
def samplePlatform : Platform :=
  { isDcFlushAllowed := true, internalHeapBase := 65536, is64bit := true }

/-- Flush-task input fixture matching the heap and flag fixtures. -/
def sampleInput : FlushInput :=
  { client := sampleClient, startOffset := 0, dsh := sampleDsh, ioh := sampleIoh,
    ssh := sampleSsh, taskLevel := 3, flags := defaultDispatchFlags,
    preemptionMode := 1 }

/-- A CSR configured to a fully non-dirty state for sampleInput. -/
def cleanCsr : CSR :=
  { lastDsh := some sampleDsh, lastIoh := some sampleIoh, lastSsh := some sampleSsh,
    lastPreemptionMode := 1, lastSentCoherencyRequest := false,
    taskLevel := 3, taskCount := 0, flushStampVal := 5, flushCalledCount := 0,
    requiresInstructionCacheFlush := false, recursiveLockCounter := 0,
    timestampPacketWriteEnabled := false, multiOsContextCapable := false,
    dispatchMode := .immediateDispatch, forceProgrammingFlags := false,
    cmdBufferQueue := [], recordedCommandBuffer := none, csStream := [],
    csUsed := 0, residencySet := [], extraSurfaces := [] }

theorem flushTask_nonDirty_noop_witness :
    (flushTask cleanCsr defaultOverrides samplePlatform sampleInput).emitted = [] ∧
    (flushTask cleanCsr defaultOverrides samplePlatform sampleInput).csr = cleanCsr :=
  ⟨(flushTask_nonDirty_noop cleanCsr defaultOverrides samplePlatform sampleInput
      rfl rfl rfl rfl rfl rfl rfl rfl rfl rfl rfl).1,
   (flushTask_nonDirty_noop cleanCsr defaultOverrides samplePlatform sampleInput
      rfl rfl rfl rfl rfl rfl rfl rfl rfl rfl rfl).2.1⟩

/-- C7: a flush-task barrier is suppressed for task-level ordering: from an
otherwise non-dirty state, a submitted task level that is not strictly
greater than the stored one yields an empty emission (zero bytes used), and
with timestamp-packet writing enabled no pipe-control is emitted even for a
strictly higher task level. -/
theorem flushTask_taskLevel_barrier_suppressed (csr : CSR) (ov : Overrides)
    (plat : Platform) (i : FlushInput)
    (hd : csr.lastDsh = some i.dsh) (hio : csr.lastIoh = some i.ioh)
    (hs : csr.lastSsh = some i.ssh)
    (hp : csr.lastPreemptionMode = i.preemptionMode)
    (hc : csr.lastSentCoherencyRequest = i.flags.requiresCoherency)
    (hf : csr.forceProgrammingFlags = false)
    (hic : csr.requiresInstructionCacheFlush = false)
    (hov : ov.forcePipeControlPriorToWalker = false)
    (hmoc : csr.multiOsContextCapable = false) :
    (i.taskLevel ≤ csr.taskLevel →
      flushTaskEmitted csr ov plat i = [] ∧
      (i.flags.guardCommandBufferWithPipeControl = false →
        (flushTask csr ov plat i).csr.csUsed = csr.csUsed)) ∧
    (csr.timestampPacketWriteEnabled = true →
      ∀ pc : PipeControl, Cmd.pipeControl pc ∉ flushTaskEmitted csr ov plat i) := by
  constructor
  · intro hle
    have htlb : taskLevelBarrierNeeded csr i = false := by
      simp [taskLevelBarrierNeeded, Nat.not_lt.mpr hle]
    have he : flushTaskEmitted csr ov plat i = [] :=
      flushTaskEmitted_eq_nil csr ov plat i hd hio hs hp hc hf hic htlb hov hmoc
    refine ⟨he, fun hg => ?_⟩
    have hcpc : clientPipeControlNeeded csr i = false := by
      simp [clientPipeControlNeeded, hg]
    simp [flushTask, he, hcpc]
  · intro htsp pc
    have htlb : taskLevelBarrierNeeded csr i = false := by
      simp [taskLevelBarrierNeeded, htsp]
    have he : flushTaskEmitted csr ov plat i = [] :=
      flushTaskEmitted_eq_nil csr ov plat i hd hio hs hp hc hf hic htlb hov hmoc
    simp [he]

/-- A clean CSR whose stored task level is below the sample input's and that
tracks completion through timestamp packets. -/
def tspCsr : CSR :=
  { cleanCsr with taskLevel := 2, timestampPacketWriteEnabled := true }

theorem flushTask_taskLevel_barrier_suppressed_witness :
    (flushTaskEmitted cleanCsr defaultOverrides samplePlatform sampleInput = []) ∧
    Cmd.pipeControl stallOnlyPipeControl ∉
      flushTaskEmitted tspCsr defaultOverrides samplePlatform sampleInput :=
  ⟨((flushTask_taskLevel_barrier_suppressed cleanCsr defaultOverrides samplePlatform
      sampleInput rfl rfl rfl rfl rfl rfl rfl rfl rfl).1 (by decide)).1,
   (flushTask_taskLevel_barrier_suppressed tspCsr defaultOverrides samplePlatform
      sampleInput rfl rfl rfl rfl rfl rfl rfl rfl rfl).2 rfl stallOnlyPipeControl⟩

/-- C8: after registerInstructionCacheFlush on a CSR (taking the exclusive
lock once, so the recursive-lock counter reads 1), the next flush-task from
an otherwise non-dirty state emits exactly one pipe-control, carrying the
instruction-cache-invalidate bit, and afterwards the pending
instruction-cache-flush flag is cleared. -/
theorem flushTask_instructionCacheFlush (csr : CSR) (ov : Overrides)
    (plat : Platform) (i : FlushInput)
    (hd : csr.lastDsh = some i.dsh) (hio : csr.lastIoh = some i.ioh)
    (hs : csr.lastSsh = some i.ssh)
    (hp : csr.lastPreemptionMode = i.preemptionMode)
    (hc : csr.lastSentCoherencyRequest = i.flags.requiresCoherency)
    (hf : csr.forceProgrammingFlags = false)
    (htl : i.taskLevel ≤ csr.taskLevel)
    (hov : ov.forcePipeControlPriorToWalker = false)
    (hmoc : csr.multiOsContextCapable = false)
    (hm : csr.dispatchMode = DispatchMode.immediateDispatch)
    (hlock : csr.recursiveLockCounter = 0) :
    (registerInstructionCacheFlush csr).recursiveLockCounter = 1 ∧
    (flushTask (registerInstructionCacheFlush csr) ov plat i).emitted =
      [Cmd.pipeControl (barrierPipeControl plat true)] ∧
    (barrierPipeControl plat true).instructionCacheInvalidate = true ∧
    (flushTask (registerInstructionCacheFlush csr) ov plat
      i).csr.requiresInstructionCacheFlush = false := by
  have he : flushTaskEmitted (registerInstructionCacheFlush csr) ov plat i =
      [Cmd.pipeControl (barrierPipeControl plat true)] := by
    simp [flushTaskEmitted, registerInstructionCacheFlush, sbaNeeded, btpaNeeded,
          heapsAreDirty, dshIsDirty, iohIsDirty, sshIsDirty, preambleNeeded,
          barrierNeeded, taskLevelBarrierNeeded, Nat.not_lt.mpr htl,
          hd, hio, hs, hp, hc, hf, hov, hmoc]
  have hm1 : (registerInstructionCacheFlush csr).dispatchMode =
      DispatchMode.immediateDispatch := by
    simp [registerInstructionCacheFlush, hm]
  refine ⟨by simp [registerInstructionCacheFlush, hlock], ?_, rfl, ?_⟩
  · simp [flushTask, he, hm1]
  · simp [flushTask, he, hm1]

theorem flushTask_instructionCacheFlush_witness :
    (registerInstructionCacheFlush cleanCsr).recursiveLockCounter = 1 ∧
    (flushTask (registerInstructionCacheFlush cleanCsr) defaultOverrides
      samplePlatform sampleInput).csr.requiresInstructionCacheFlush = false :=
  ⟨(flushTask_instructionCacheFlush cleanCsr defaultOverrides samplePlatform
      sampleInput rfl rfl rfl rfl rfl rfl (by decide) rfl rfl rfl rfl).1,
   (flushTask_instructionCacheFlush cleanCsr defaultOverrides samplePlatform
      sampleInput rfl rfl rfl rfl rfl rfl (by decide) rfl rfl rfl rfl).2.2.2⟩

/-- C9: a blocking dispatch with the guard-command-buffer-with-pipe-control
request, from a non-dirty CSR state, writes a pipe-control into the client's
own command stream (its used byte count grows) while the CSR's shared
command stream stays completely unchanged. -/
theorem flushTask_blocking_client_pipeControl (csr : CSR) (ov : Overrides)
    (plat : Platform) (i : FlushInput)
    (hd : csr.lastDsh = some i.dsh) (hio : csr.lastIoh = some i.ioh)
    (hs : csr.lastSsh = some i.ssh)
    (hp : csr.lastPreemptionMode = i.preemptionMode)
    (hc : csr.lastSentCoherencyRequest = i.flags.requiresCoherency)
    (hf : csr.forceProgrammingFlags = false)
    (hic : csr.requiresInstructionCacheFlush = false)
    (htl : i.taskLevel ≤ csr.taskLevel)
    (hov : ov.forcePipeControlPriorToWalker = false)
    (hmoc : csr.multiOsContextCapable = false)
    (hm : csr.dispatchMode = DispatchMode.immediateDispatch)
    (hb : i.flags.blocking = true)
    (hg : i.flags.guardCommandBufferWithPipeControl = true) :
    (flushTask csr ov plat i).client.cmds =
      i.client.cmds ++ [Cmd.pipeControl (guardPipeControl plat)] ∧
    (flushTask csr ov plat i).client.used =
      i.client.used + cmdBytes (Cmd.pipeControl (guardPipeControl plat)) ∧
    i.client.used < (flushTask csr ov plat i).client.used ∧
    (flushTask csr ov plat i).emitted = [] ∧
    (flushTask csr ov plat i).csr.csStream = csr.csStream ∧
    (flushTask csr ov plat i).csr.csUsed = csr.csUsed := by
  have he : flushTaskEmitted csr ov plat i = [] :=
    flushTaskEmitted_eq_nil csr ov plat i hd hio hs hp hc hf hic
      (by simp [taskLevelBarrierNeeded, Nat.not_lt.mpr htl]) hov hmoc
  have hcpc : clientPipeControlNeeded csr i = true := by
    simp [clientPipeControlNeeded, hg, hb]
  refine ⟨?_, ?_, ?_, ?_, ?_, ?_⟩ <;>
    simp [flushTask, he, hcpc, hm, cmdBytes]

/-- Sample input with blocking and guard-command-buffer flags set. -/
def blockingFlags : DispatchFlags :=
  { defaultDispatchFlags with
      blocking := true
      guardCommandBufferWithPipeControl := true }

/-- Sample input fixture carrying the blocking flags. -/
def blockingInput : FlushInput :=
  { sampleInput with flags := blockingFlags }

theorem flushTask_blocking_client_pipeControl_witness :
    (flushTask cleanCsr defaultOverrides samplePlatform blockingInput).emitted = [] ∧
    (flushTask cleanCsr defaultOverrides samplePlatform blockingInput).client.cmds =
      blockingInput.client.cmds ++ [Cmd.pipeControl (guardPipeControl samplePlatform)] :=
  ⟨(flushTask_blocking_client_pipeControl cleanCsr defaultOverrides samplePlatform
      blockingInput rfl rfl rfl rfl rfl rfl rfl (by decide) rfl rfl rfl rfl
      rfl).2.2.2.1,
   (flushTask_blocking_client_pipeControl cleanCsr defaultOverrides samplePlatform
      blockingInput rfl rfl rfl rfl rfl rfl rfl (by decide) rfl rfl rfl rfl
      rfl).1⟩

/-- C10: a multi-OS-context capable CSR, flushed from a fully non-dirty
state, still uses its own command stream: exactly one cache line of bytes is
consumed and the stream begins with a batch-buffer-start jump to the client
buffer, rather than emitting nothing. -/
theorem flushTask_multiOsContext_streamUsed (csr : CSR) (ov : Overrides)
    (plat : Platform) (i : FlushInput)
    (hd : csr.lastDsh = some i.dsh) (hio : csr.lastIoh = some i.ioh)
    (hs : csr.lastSsh = some i.ssh)
    (hp : csr.lastPreemptionMode = i.preemptionMode)
    (hc : csr.lastSentCoherencyRequest = i.flags.requiresCoherency)
    (hf : csr.forceProgrammingFlags = false)
    (hic : csr.requiresInstructionCacheFlush = false)
    (htl : i.taskLevel ≤ csr.taskLevel)
    (hov : ov.forcePipeControlPriorToWalker = false)
    (hmoc : csr.multiOsContextCapable = true)
    (hm : csr.dispatchMode = DispatchMode.immediateDispatch)
    (hus : csr.csUsed = 0) (hst : csr.csStream = []) :
    (flushTask csr ov plat i).emitted = [Cmd.batchBufferStart i.client.allocId] ∧
    (flushTask csr ov plat i).csr.csUsed = cacheLineSize ∧
    (flushTask csr ov plat i).csr.csStream.head? =
      some (Cmd.batchBufferStart i.client.allocId) := by
  have he : flushTaskEmitted csr ov plat i =
      [Cmd.batchBufferStart i.client.allocId] := by
    simp [flushTaskEmitted, sbaNeeded, btpaNeeded, heapsAreDirty, dshIsDirty,
          iohIsDirty, sshIsDirty, preambleNeeded, barrierNeeded,
          taskLevelBarrierNeeded, Nat.not_lt.mpr htl,
          hd, hio, hs, hp, hc, hf, hic, hov, hmoc]
  refine ⟨?_, ?_, ?_⟩ <;>
    simp [flushTask, he, hm, hus, hst, bytesOf, cmdBytes, alignUp, cacheLineSize]

/-- A clean CSR marked multi-OS-context capable. -/
def multiOsCsr : CSR := { cleanCsr with multiOsContextCapable := true }

theorem flushTask_multiOsContext_streamUsed_witness :
    (flushTask multiOsCsr defaultOverrides samplePlatform sampleInput).csr.csUsed =
      cacheLineSize :=
  (flushTask_multiOsContext_streamUsed multiOsCsr defaultOverrides samplePlatform
    sampleInput rfl rfl rfl rfl rfl rfl rfl (by decide) rfl rfl rfl rfl rfl).2.1

/-- C6: with the force-barrier-before-compute-dispatch override and the
flush-all-caches override both set, a flush-task emission from an otherwise
non-dirty state contains exactly two pipe-controls in order: first with the
command-streamer-stall bit set and every cache-control bit clear, second
with every cache-control bit set. -/
theorem flushTask_forced_double_pipeControl (csr : CSR) (ov : Overrides)
    (plat : Platform) (i : FlushInput)
    (hd : csr.lastDsh = some i.dsh) (hio : csr.lastIoh = some i.ioh)
    (hs : csr.lastSsh = some i.ssh)
    (hp : csr.lastPreemptionMode = i.preemptionMode)
    (hc : csr.lastSentCoherencyRequest = i.flags.requiresCoherency)
    (hf : csr.forceProgrammingFlags = false)
    (hic : csr.requiresInstructionCacheFlush = false)
    (htl : i.taskLevel ≤ csr.taskLevel)
    (hmoc : csr.multiOsContextCapable = false)
    (hforce : ov.forcePipeControlPriorToWalker = true)
    (hall : ov.flushAllCaches = true) :
    flushTaskEmitted csr ov plat i =
      [Cmd.pipeControl stallOnlyPipeControl,
       Cmd.pipeControl (walkerPipeControl ov)] ∧
    stallOnlyPipeControl.commandStreamerStall = true ∧
    stallOnlyPipeControl.dcFlush = false ∧
    stallOnlyPipeControl.renderTargetCacheFlush = false ∧
    stallOnlyPipeControl.instructionCacheInvalidate = false ∧
    stallOnlyPipeControl.textureCacheInvalidate = false ∧
    stallOnlyPipeControl.pipeControlFlush = false ∧
    stallOnlyPipeControl.vfCacheInvalidate = false ∧
    stallOnlyPipeControl.constantCacheInvalidate = false ∧
    stallOnlyPipeControl.stateCacheInvalidate = false ∧
    (walkerPipeControl ov).commandStreamerStall = true ∧
    (walkerPipeControl ov).dcFlush = true ∧
    (walkerPipeControl ov).renderTargetCacheFlush = true ∧
    (walkerPipeControl ov).instructionCacheInvalidate = true ∧
    (walkerPipeControl ov).textureCacheInvalidate = true ∧
    (walkerPipeControl ov).pipeControlFlush = true ∧
    (walkerPipeControl ov).vfCacheInvalidate = true ∧
    (walkerPipeControl ov).constantCacheInvalidate = true ∧
    (walkerPipeControl ov).stateCacheInvalidate = true := by
  refine ⟨?_, rfl, rfl, rfl, rfl, rfl, rfl, rfl, rfl, rfl, rfl, ?_, ?_, ?_, ?_,
    ?_, ?_, ?_, ?_⟩
  · simp [flushTaskEmitted, sbaNeeded, btpaNeeded, heapsAreDirty, dshIsDirty,
          iohIsDirty, sshIsDirty, preambleNeeded, barrierNeeded,
          taskLevelBarrierNeeded, Nat.not_lt.mpr htl,
          hd, hio, hs, hp, hc, hf, hic, hforce, hmoc]
  all_goals simp [walkerPipeControl, hall]

/-- Override fixture with forced walker barrier and flush-all-caches set. -/
def forcedOverrides : Overrides :=
  { disableCachingForHeaps := false, flushAllCaches := true,
    forcePipeControlPriorToWalker := true }

theorem flushTask_forced_double_pipeControl_witness :
    flushTaskEmitted cleanCsr forcedOverrides samplePlatform sampleInput =
      [Cmd.pipeControl stallOnlyPipeControl,
       Cmd.pipeControl (walkerPipeControl forcedOverrides)] :=
  (flushTask_forced_double_pipeControl cleanCsr forcedOverrides samplePlatform
    sampleInput rfl rfl rfl rfl rfl rfl rfl (by decide) rfl rfl rfl).1

/-- C4: whenever a flush-task emission must (re)program state-base-address,
a pipe-control appears strictly before the SBA command in the emitted
stream's program order (here: immediately before it), carrying
texture-cache-invalidate, the hardware-generation HDC pipeline-flush bit,
and a data-cache-flush bit equal to the platform policy isDcFlushAllowed
rather than unconditionally set. -/
theorem flushTask_pipeControl_before_sba (csr : CSR) (ov : Overrides)
    (plat : Platform) (i : FlushInput)
    (hsba : sbaNeeded csr i = true) :
    (∃ pre rest, flushTaskEmitted csr ov plat i =
      pre ++ [Cmd.pipeControl (preSbaPipeControl plat),
              Cmd.sba (flushTaskSbaCmd ov plat i)] ++ rest) ∧
    (preSbaPipeControl plat).textureCacheInvalidate = true ∧
    (preSbaPipeControl plat).hdcPipelineFlush = true ∧
    (preSbaPipeControl plat).dcFlush = plat.isDcFlushAllowed := by
  refine ⟨⟨(if ov.forcePipeControlPriorToWalker then
      [Cmd.pipeControl stallOnlyPipeControl,
       Cmd.pipeControl (walkerPipeControl ov)] else []) ++
      (if preambleNeeded csr i then [Cmd.preambleState] else []),
    (if btpaNeeded csr i then
      [Cmd.btpa i.ssh.base i.ssh.sizeInPages (heapMocs ov)] else []) ++
      ((if barrierNeeded csr i then
        [Cmd.pipeControl (barrierPipeControl plat csr.requiresInstructionCacheFlush)]
      else []) ++
      (if csr.multiOsContextCapable then
        [Cmd.batchBufferStart i.client.allocId] else [])), ?_⟩, rfl, rfl, rfl⟩
  simp [flushTaskEmitted, hsba]

/-- A CSR whose dynamic-state snapshot disagrees with the sample input, so
state-base-address must be reprogrammed. -/
def sbaDirtyCsr : CSR := { cleanCsr with lastDsh := some sampleSsh }

theorem flushTask_pipeControl_before_sba_witness :
    ∃ pre rest,
      flushTaskEmitted sbaDirtyCsr defaultOverrides samplePlatform sampleInput =
        pre ++ [Cmd.pipeControl (preSbaPipeControl samplePlatform),
                Cmd.sba (flushTaskSbaCmd defaultOverrides samplePlatform
                  sampleInput)] ++ rest :=
  (flushTask_pipeControl_before_sba sbaDirtyCsr defaultOverrides samplePlatform
    sampleInput (by decide)).1

/-- C5: the binding-table-pool-allocation command is emitted exactly when
the surface-state heap is reprogrammed or an initProgrammingFlags reset
forces re-emission (both of which also force the SBA command), with base
address and buffer size taken from the surface-state heap and a MOCS index
following the disable-caching-for-heaps override (cacheline-misaligned
system-memory policy when set, default state-heap policy otherwise); when
the surface-state heap is not reprogrammed and no reset forces it, no
binding-table-pool-allocation command appears even if SBA is re-emitted for
other heaps. -/
theorem flushTask_bindingTablePool (csr : CSR) (ov : Overrides)
    (plat : Platform) (i : FlushInput) :
    (btpaNeeded csr i = true →
      Cmd.btpa i.ssh.base i.ssh.sizeInPages (heapMocs ov) ∈
        flushTaskEmitted csr ov plat i) ∧
    (btpaNeeded csr i = false →
      ∀ b s m, Cmd.btpa b s m ∉ flushTaskEmitted csr ov plat i) ∧
    (ov.disableCachingForHeaps = true →
      heapMocs ov = getMOCS .oclSystemMemoryBufferCachelineMisaligned) ∧
    (ov.disableCachingForHeaps = false →
      heapMocs ov = getMOCS .oclStateHeapBuffer) := by
  refine ⟨?_, ?_, ?_, ?_⟩
  · intro hbt
    have hsba : sbaNeeded csr i = true := by
      simp only [btpaNeeded, Bool.or_eq_true] at hbt
      rcases hbt with h | h <;> simp [sbaNeeded, heapsAreDirty, h]
    by_cases h1 : ov.forcePipeControlPriorToWalker <;>
    by_cases h2 : preambleNeeded csr i <;>
    by_cases h4 : barrierNeeded csr i <;>
    by_cases h5 : csr.multiOsContextCapable <;>
    simp_all [flushTaskEmitted]
  · intro hbt b s m hmem
    by_cases h1 : ov.forcePipeControlPriorToWalker <;>
    by_cases h2 : preambleNeeded csr i <;>
    by_cases h3 : sbaNeeded csr i <;>
    by_cases h4 : barrierNeeded csr i <;>
    by_cases h5 : csr.multiOsContextCapable <;>
    simp_all [flushTaskEmitted]
  · intro h
    simp [heapMocs, h]
  · intro h
    simp [heapMocs, h]

/-- A CSR whose surface-state snapshot disagrees with the sample input, so
both SBA and the binding-table pool must be reprogrammed. -/
def sshDirtyCsr : CSR := { cleanCsr with lastSsh := some sampleDsh }

theorem flushTask_bindingTablePool_witness :
    Cmd.btpa sampleInput.ssh.base sampleInput.ssh.sizeInPages
      (heapMocs defaultOverrides) ∈
      flushTaskEmitted sshDirtyCsr defaultOverrides samplePlatform sampleInput ∧
    Cmd.btpa sampleSsh.base sampleSsh.sizeInPages (heapMocs defaultOverrides) ∉
      flushTaskEmitted sbaDirtyCsr defaultOverrides samplePlatform sampleInput :=
  ⟨(flushTask_bindingTablePool sshDirtyCsr defaultOverrides samplePlatform
      sampleInput).1 (by decide),
   (flushTask_bindingTablePool sbaDirtyCsr defaultOverrides samplePlatform
      sampleInput).2.1 (by decide) sampleSsh.base sampleSsh.sizeInPages
      (heapMocs defaultOverrides)⟩

theorem find_mapped_of_mem (l : List Nat) (rest : List (Nat × Nat)) (tc a : Nat)
    (h : a ∈ l) :
    List.find? (fun p => p.1 == a) (l.map (fun x => (x, tc)) ++ rest) =
      some (a, tc) := by
  induction l with
  | nil => cases h
  | cons x xs ih =>
    rcases List.mem_cons.mp h with rfl | hmem
    · rw [List.map_cons, List.cons_append, List.find?_cons_of_pos _ (by simp)]
    · by_cases hx : x = a
      · subst hx
        rw [List.map_cons, List.cons_append, List.find?_cons_of_pos _ (by simp)]
      · rw [List.map_cons, List.cons_append,
          List.find?_cons_of_neg _ (by simp [hx])]
        exact ih hmem

theorem residencyTaskCount_of_mem (l : List Nat) (rest : List (Nat × Nat))
    (tc a : Nat) (h : a ∈ l) :
    residencyTaskCount (l.map (fun x => (x, tc)) ++ rest) a = some tc := by
  simp [residencyTaskCount, find_mapped_of_mem l rest tc a h]

theorem isResident_of_mem (l : List Nat) (rest : List (Nat × Nat))
    (tc a : Nat) (h : a ∈ l) :
    isResident (l.map (fun x => (x, tc)) ++ rest) a = true := by
  simp only [isResident, List.any_eq_true]
  exact ⟨(a, tc), List.mem_append_left _ (List.mem_map.mpr ⟨a, h, rfl⟩), by simp⟩

theorem isResident_releaseSurfaces (s : List (Nat × Nat)) (surfs : List Nat)
    (a : Nat) (h : a ∈ surfs) :
    isResident (releaseSurfaces s surfs) a = false := by
  rw [isResident, List.any_eq_false]
  intro p hp
  rcases List.mem_filter.mp hp with ⟨hps, hkeep⟩
  simp only [Bool.not_eq_true', Bool.not_eq_false] at hkeep
  intro hbeq
  have hpa : p.1 = a := by simpa using hbeq
  rw [hpa] at hkeep
  rw [List.contains, List.elem_eq_true_of_mem h] at hkeep
  cases hkeep

/-- The CommandBuffer entry that a batched-mode flush-task records on the
aggregator queue: the client surfaces (the three heaps and the client
stream allocation), the CSR's own extra surfaces, the submission offset and
the coherency/priority flags of the dispatch. -/
def recordedBatchBuffer (csr : CSR) (i : FlushInput) : CommandBuffer :=
  { surfaces := [i.dsh.allocId, i.ioh.allocId, i.ssh.allocId, i.client.allocId] ++
      csr.extraSurfaces,
    startOffset := i.startOffset,
    requiresCoherency := i.flags.requiresCoherency,
    lowPriority := i.flags.lowPriority,
    commandBufferAllocation := i.client.allocId }

/-- C2: in batched dispatch mode, a flush-task that enqueues work leaves the
hardware-submission invocation count and flush stamp untouched and records
exactly one new CommandBuffer on the aggregator queue, whose surfaces are
all resident with residency task count equal to the current (incremented)
task count and which preserves the dispatch's coherency-required flag,
low-priority flag and start offset; a subsequent flushBatchedSubmissions
submits that buffer exactly once (invocation count becomes one, flush stamp
advances), records it as the submitted batch buffer, empties the queue, and
leaves every surface of that buffer non-resident. -/
theorem flushTask_batched_aggregator (csr : CSR) (ov : Overrides)
    (plat : Platform) (i : FlushInput)
    (hb : csr.dispatchMode = DispatchMode.batchedDispatch)
    (hq : csr.cmdBufferQueue = [])
    (hd : csr.lastDsh = some i.dsh) (hio : csr.lastIoh = some i.ioh)
    (hs : csr.lastSsh = some i.ssh)
    (hp : csr.lastPreemptionMode = i.preemptionMode)
    (hc : csr.lastSentCoherencyRequest = i.flags.requiresCoherency)
    (hf : csr.forceProgrammingFlags = false)
    (hic : csr.requiresInstructionCacheFlush = false)
    (htl : i.taskLevel ≤ csr.taskLevel)
    (hov : ov.forcePipeControlPriorToWalker = false)
    (hmoc : csr.multiOsContextCapable = false)
    (hg : i.flags.guardCommandBufferWithPipeControl = true) :
    (flushTask csr ov plat i).csr.flushCalledCount = csr.flushCalledCount ∧
    (flushTask csr ov plat i).csr.flushStampVal = csr.flushStampVal ∧
    (flushTask csr ov plat i).csr.cmdBufferQueue = [recordedBatchBuffer csr i] ∧
    (flushTask csr ov plat i).csr.taskCount = csr.taskCount + 1 ∧
    (recordedBatchBuffer csr i).requiresCoherency = i.flags.requiresCoherency ∧
    (recordedBatchBuffer csr i).lowPriority = i.flags.lowPriority ∧
    (recordedBatchBuffer csr i).startOffset = i.startOffset ∧
    (∀ a ∈ (recordedBatchBuffer csr i).surfaces,
      isResident (flushTask csr ov plat i).csr.residencySet a = true ∧
      residencyTaskCount (flushTask csr ov plat i).csr.residencySet a =
        some ((flushTask csr ov plat i).csr.taskCount)) ∧
    (flushBatchedSubmissions (flushTask csr ov plat i).csr).flushCalledCount =
      csr.flushCalledCount + 1 ∧
    (flushBatchedSubmissions (flushTask csr ov plat i).csr).flushStampVal =
      csr.flushStampVal + 1 ∧
    (flushBatchedSubmissions (flushTask csr ov plat i).csr).recordedCommandBuffer =
      some (recordedBatchBuffer csr i) ∧
    (flushBatchedSubmissions (flushTask csr ov plat i).csr).cmdBufferQueue = [] ∧
    (∀ a ∈ (recordedBatchBuffer csr i).surfaces,
      isResident
        (flushBatchedSubmissions (flushTask csr ov plat i).csr).residencySet a =
        false) := by
  have he : flushTaskEmitted csr ov plat i = [] :=
    flushTaskEmitted_eq_nil csr ov plat i hd hio hs hp hc hf hic
      (by simp [taskLevelBarrierNeeded, Nat.not_lt.mpr htl]) hov hmoc
  have hcpc : clientPipeControlNeeded csr i = true := by
    simp [clientPipeControlNeeded, hg, hb]
  have hr : (flushTask csr ov plat i).csr =
      { csr with
          lastDsh := some i.dsh, lastIoh := some i.ioh, lastSsh := some i.ssh,
          lastPreemptionMode := i.preemptionMode,
          lastSentCoherencyRequest := i.flags.requiresCoherency,
          forceProgrammingFlags := false,
          requiresInstructionCacheFlush := false,
          taskLevel := max csr.taskLevel i.taskLevel,
          taskCount := csr.taskCount + 1,
          cmdBufferQueue := [recordedBatchBuffer csr i],
          residencySet :=
            (recordedBatchBuffer csr i).surfaces.map
              (fun a => (a, csr.taskCount + 1)) ++ csr.residencySet } := by
    simp [flushTask, he, hcpc, hb, hq, recordedBatchBuffer]
  refine ⟨by simp [hr], by simp [hr], by simp [hr], by simp [hr], rfl, rfl, rfl,
    ?_, ?_, ?_, ?_, ?_, ?_⟩
  · intro a ha
    rw [hr]
    constructor
    · exact isResident_of_mem _ _ _ _ ha
    · exact residencyTaskCount_of_mem _ _ _ _ ha
  · rw [hr]
    simp [flushBatchedSubmissions]
  · rw [hr]
    simp [flushBatchedSubmissions]
  · rw [hr]
    simp [flushBatchedSubmissions]
  · rw [hr]
    simp [flushBatchedSubmissions]
  · intro a ha
    rw [hr]
    simp only [flushBatchedSubmissions, List.foldl_cons, List.foldl_nil]
    exact isResident_releaseSurfaces _ _ _ ha

/-- A clean CSR in batched dispatch mode with an empty aggregator queue. -/
def batchedCsr : CSR := { cleanCsr with dispatchMode := .batchedDispatch }

/-- Dispatch flags requesting only the guarding pipe-control. -/
def guardedFlags : DispatchFlags :=
  { defaultDispatchFlags with guardCommandBufferWithPipeControl := true }

/-- Sample input fixture carrying the guarding flags. -/
def guardedInput : FlushInput := { sampleInput with flags := guardedFlags }

theorem flushTask_batched_aggregator_witness :
    (flushTask batchedCsr defaultOverrides samplePlatform
      guardedInput).csr.cmdBufferQueue =
      [recordedBatchBuffer batchedCsr guardedInput] ∧
    isResident
      (flushBatchedSubmissions
        (flushTask batchedCsr defaultOverrides samplePlatform
          guardedInput).csr).residencySet sampleDsh.allocId = false :=
  ⟨(flushTask_batched_aggregator batchedCsr defaultOverrides samplePlatform
      guardedInput rfl rfl rfl rfl rfl rfl rfl rfl rfl (by decide) rfl rfl
      rfl).2.2.1,
   (flushTask_batched_aggregator batchedCsr defaultOverrides samplePlatform
      guardedInput rfl rfl rfl rfl rfl rfl rfl rfl rfl (by decide) rfl rfl
      rfl).2.2.2.2.2.2.2.2.2.2.2.2 sampleDsh.allocId (by decide)⟩
